import Mathlib

/-!
Shallow embedding of the Caia dashboard gateway (src/api/server.py) and
proofs of the specification claims about it.

Modeling conventions:
* JSON values are the inductive `Json` below; an object is an association
  list of string keys, first occurrence wins on lookup, as a Python dict
  with unique keys.
* An HTTP response from an upstream is `UpstreamResponse`: its status, its
  raw body text, and the outcome of attempting to parse that text as JSON
  (`parsed`), which models the `resp.json()` try/except in the source.
  The empty string is not valid JSON, so an empty body has `parsed = none`.
* A transport-level failure (`httpx.RequestError`) is modeled by passing
  `none` instead of a response.
* A raised `HTTPException(status_code, detail)` is the `HTTPError`
  structure, and a handler body is a total function into
  `Except HTTPError _`.
* Python `str.strip()` is `pyStrip`, `str.rstrip("/")` is `pySlashRstrip`,
  substring membership `pat in s` is `hasSubstr`.
-/

inductive Json where
  | null
  | bool (b : Bool)
  | num (n : Int)
  | str (s : String)
  | arr (xs : List Json)
  | obj (fields : List (String × Json))
deriving Repr, Inhabited

/-- A raised FastAPI `HTTPException`: status code and detail payload. -/
structure HTTPError where
  status : Nat
  detail : Json
deriving Repr, Inhabited

/-- First-match lookup in a JSON object's field list (Python `dict.get`). -/
def jLookup : List (String × Json) → String → Option Json
  | [], _ => none
  | (k, v) :: rest, key => if k = key then some v else jLookup rest key

/-- Python `d[key] = v` on a dict: replace in place if the key is present,
append otherwise. -/
def setKey : List (String × Json) → String → Json → List (String × Json)
  | [], key, v => [(key, v)]
  | (k, w) :: rest, key, v =>
    if k = key then (k, v) :: rest else (k, w) :: setKey rest key v

/-- Characters removed by Python `str.strip()` with no argument. -/
def isPySpace (c : Char) : Bool :=
  c = ' ' || c = '\t' || c = '\n' || c = '\r' ||
  c = Char.ofNat 11 || c = Char.ofNat 12

/-- Python `str.strip()`: drop leading and trailing whitespace. -/
def pyStrip (s : String) : String :=
  String.mk ((((s.data.dropWhile isPySpace).reverse.dropWhile isPySpace).reverse))

/-- Python `str.rstrip("/")`: drop trailing slash characters. -/
def pySlashRstrip (s : String) : String :=
  String.mk ((s.data.reverse.dropWhile (fun c => c = '/')).reverse)

/-- Python `s.startswith(pre)`. -/
def pyStartsWith (s pre : String) : Bool :=
  pre.data.isPrefixOf s.data

/-- Whether `pat` occurs as a contiguous run inside `l`. -/
def listHasRun (pat : List Char) : List Char → Bool
  | [] => pat.isEmpty
  | c :: rest => pat.isPrefixOf (c :: rest) || listHasRun pat rest

/-- Python `pat in s` for strings: substring containment. -/
def hasSubstr (s pat : String) : Bool :=
  listHasRun pat.data s.data

/-- Python truthiness of a JSON-decoded value: `None`, `False`, `0`, `""`,
`[]` and `\x7b\x7d` are falsy, everything else truthy. -/
def pyTruthy : Json → Bool
  | Json.null => false
  | Json.bool b => b
  | Json.num n => n ≠ 0
  | Json.str s => s ≠ ""
  | Json.arr xs => !xs.isEmpty
  | Json.obj fs => !fs.isEmpty

/-- Python `isinstance(x, int)` on a JSON-decoded value, returning the
integer. `bool` is a subclass of `int` in Python, so booleans qualify. -/
def asPyInt : Json → Option Int
  | Json.num n => some n
  | Json.bool b => some (if b then 1 else 0)
  | _ => none

/-- `asPyInt` lifted over an optional (`dict.get` result, `None` when the
key is missing). -/
def asPyIntOpt : Option Json → Option Int
  | some j => asPyInt j
  | none => none

/-- Python `x or default` where `x` is `dict.get(key)` and the default is a
string: the default is taken when the key is absent or its value falsy. -/
def pyGetOr (v : Option Json) (dflt : String) : Json :=
  match v with
  | none => Json.str dflt
  | some j => if pyTruthy j then j else Json.str dflt

/-- Python `a or b` on strings: `b` when `a` is empty. -/
def pyOrStr (a b : String) : String :=
  if a = "" then b else a

/-- `_clean_base_url` (server.py:22): strip, then drop trailing slashes. -/
def _clean_base_url (raw : String) : String :=
  let v := pyStrip raw
  if v = "" then "" else pySlashRstrip v

/-- One upstream HTTP response: status, raw body text, and the result of
attempting to decode the body as JSON (`none` when not parseable; the
empty string is not parseable). -/
structure UpstreamResponse where
  status : Nat
  text : String
  parsed : Option Json
deriving Repr

/-- The error payload for an upstream status >= 400 (server.py:100-103):
the decoded JSON body when parseable, else the raw text wrapped as a
`detail` object. -/
def errorPayload (resp : UpstreamResponse) : Json :=
  match resp.parsed with
  | some j => j
  | none => Json.obj [("detail", Json.str resp.text)]

/-- `_request_upstream` (server.py:78-112). The network interaction is the
`transport` argument: `none` for a transport failure
(`httpx.RequestError`), `some resp` for a received response. -/
def _request_upstream (upstream base_url : String)
    (transport : Option UpstreamResponse) : Except HTTPError Json :=
  if base_url = "" then
    .error ⟨503, Json.str (upstream ++ " base URL not configured")⟩
  else
    match transport with
    | none => .error ⟨502, Json.str (upstream ++ " request failed")⟩
    | some resp =>
      if 400 ≤ resp.status then
        .error ⟨resp.status,
          Json.obj [("upstream", Json.str upstream), ("error", errorPayload resp)]⟩
      else if resp.status = 204 then
        .ok Json.null
      else
        match resp.parsed with
        | some j => .ok j
        | none => .error ⟨502, Json.str (upstream ++ " returned invalid JSON")⟩

example :
    _request_upstream "onyx-api" "http://127.0.0.1:8000"
      (some ⟨404, "missing", some (Json.obj [("detail", Json.str "nope")])⟩) =
    .error ⟨404, Json.obj [("upstream", Json.str "onyx-api"),
      ("error", Json.obj [("detail", Json.str "nope")])]⟩ := rfl

example :
    _request_upstream "onyx-api" "http://127.0.0.1:8000"
      (some ⟨204, "", none⟩) = .ok Json.null := rfl

example :
    _request_upstream "onyx-api" "http://127.0.0.1:8000"
      (some ⟨200, "", none⟩) =
    .error ⟨502, Json.str "onyx-api returned invalid JSON"⟩ := rfl

/-!
Artifact resolution dispatcher (`resolve_model_checkpoint`,
server.py:315-359). The handler first fetches the model record from the
registry; the embedding starts from that record (`model`). A successful
outcome is the request body that the handler sends to the artifact-cache
`/resolve` endpoint; an error is the `HTTPException` raised before any
such request is issued.
-/

/-- The dispatch logic of `resolve_model_checkpoint` (server.py:315-359),
from the fetched model record to either the `/resolve` request body or the
`HTTPException` raised before any upstream call. -/
def resolve_model_checkpoint (model : Json) :
    Except HTTPError (List (String × Json)) :=
  match model with
  | Json.obj fields =>
    match jLookup fields "artifact_uri" with
    | some (Json.str raw) =>
      if pyStrip raw = "" then
        .error ⟨400, Json.str "Model is missing artifact_uri"⟩
      else
        let artifact_uri := pyStrip raw
        let sha256 := jLookup fields "checkpoint_sha256"
        let size_bytes := jLookup fields "checkpoint_size_bytes"
        if pyStartsWith artifact_uri "s3://" then
          match sha256 with
          | some (Json.str sha) =>
            if pyStrip sha = "" then
              .error ⟨400, Json.str "Remote artifact requires checkpoint_sha256"⟩
            else
              match asPyIntOpt size_bytes with
              | some n =>
                if n < 0 then
                  .error ⟨400, Json.str "Remote artifact requires checkpoint_size_bytes"⟩
                else
                  .ok [("artifact_uri", Json.str artifact_uri),
                       ("sha256", Json.str sha),
                       ("size_bytes", Json.num n)]
              | none =>
                .error ⟨400, Json.str "Remote artifact requires checkpoint_size_bytes"⟩
          | _ => .error ⟨400, Json.str "Remote artifact requires checkpoint_sha256"⟩
        else if pyStartsWith artifact_uri "file://" || !hasSubstr artifact_uri "://" then
          let p0 := [("artifact_uri", Json.str artifact_uri)]
          let p1 :=
            match sha256 with
            | some (Json.str sha) =>
              if pyStrip sha = "" then p0 else p0 ++ [("sha256", Json.str (pyStrip sha))]
            | _ => p0
          let p2 :=
            match asPyIntOpt size_bytes with
            | some n => if 0 ≤ n then p1 ++ [("size_bytes", Json.num n)] else p1
            | none => p1
          .ok p2
        else
          .error ⟨400,
            Json.str ("Unsupported artifact_uri scheme for resolution: " ++ artifact_uri)⟩
    | _ => .error ⟨400, Json.str "Model is missing artifact_uri"⟩
  | _ => .error ⟨502, Json.str "model-registry returned invalid model payload"⟩

example :
    resolve_model_checkpoint (Json.obj
      [("artifact_uri", Json.str "s3://bucket/ckpt"),
       ("checkpoint_sha256", Json.str "abc"),
       ("checkpoint_size_bytes", Json.num 7)]) =
    .ok [("artifact_uri", Json.str "s3://bucket/ckpt"),
         ("sha256", Json.str "abc"), ("size_bytes", Json.num 7)] := rfl

example :
    resolve_model_checkpoint (Json.obj
      [("artifact_uri", Json.str "s3://bucket/ckpt")]) =
    .error ⟨400, Json.str "Remote artifact requires checkpoint_sha256"⟩ := rfl

example :
    resolve_model_checkpoint (Json.obj
      [("artifact_uri", Json.str "gs://bucket/ckpt")]) =
    .error ⟨400,
      Json.str "Unsupported artifact_uri scheme for resolution: gs://bucket/ckpt"⟩ := rfl

example :
    resolve_model_checkpoint (Json.obj
      [("artifact_uri", Json.str "/srv/models/ckpt.bin")]) =
    .ok [("artifact_uri", Json.str "/srv/models/ckpt.bin")] := rfl

/-!
Eval-run storage endpoints. `_safe_run_id` (server.py:141-147) validates
the caller-supplied run identifier; the summary/jsonl handlers
(server.py:458-473) build a filesystem path from it only after it
validates. The filesystem is a function from path to `none` (file absent)
or `some contents`; for the summary endpoint the contents carry the
outcome of JSON-decoding the file.
-/

/-- `_safe_run_id` (server.py:141-147). -/
def _safe_run_id (raw : String) : Except HTTPError String :=
  let s := pyStrip raw
  if s = "" then .error ⟨400, Json.str "eval_run_id is required"⟩
  else if s.data.contains '/' || s.data.contains '\\' || s.data.contains (Char.ofNat 0) then
    .error ⟨400, Json.str "Invalid eval_run_id"⟩
  else .ok s

/-- `get_eval_summary` (server.py:458-464). `fs` maps a path to `none`
when no file exists there, else to the JSON-decode outcome of the file's
text; an unparseable summary raises out of the handler as a generic 500. -/
def get_eval_summary (eval_run_id : String) (runsDir : String)
    (fs : String → Option (Option Json)) : Except HTTPError Json :=
  match _safe_run_id eval_run_id with
  | .error e => .error e
  | .ok rid =>
    match fs (runsDir ++ "/" ++ rid ++ "_summary.json") with
    | none => .error ⟨404, Json.str "Eval summary not found"⟩
    | some (some j) => .ok j
    | some none => .error ⟨500, Json.str "Internal Server Error"⟩

/-- `get_eval_jsonl` (server.py:467-473). The served `FileResponse` is
modeled as the path of the file that is streamed back. -/
def get_eval_jsonl (eval_run_id : String) (runsDir : String)
    (fs : String → Option String) : Except HTTPError String :=
  match _safe_run_id eval_run_id with
  | .error e => .error e
  | .ok rid =>
    let path := runsDir ++ "/" ++ rid ++ ".jsonl"
    match fs path with
    | none => .error ⟨404, Json.str "Eval jsonl not found"⟩
    | some _ => .ok path

example : _safe_run_id "../secret" = .error ⟨400, Json.str "Invalid eval_run_id"⟩ := rfl
example : _safe_run_id "run-42" = .ok "run-42" := rfl

/-!
External process orchestrator (`run_eval`, server.py:476-566). The
environment captured at startup is `EvalEnv`; the spawned subprocess is
the `proc` argument (its exit code plus captured streams); `stdoutJson`
is the outcome of JSON-decoding the stripped stdout, modeling the
`httpx.Response(200, text=stdout).json()` try/except. Real time is a
`Nat` clock: the gateway reads `t` immediately before spawning and
`t + d` immediately after the process exits, where `d` is the elapsed
runtime; ISO-8601 UTC timestamps are monotone in this clock, so the two
stamps are modeled as `Json.num t` and `Json.num (t + d)`.
-/

/-- Startup configuration used by the eval-run handler. -/
structure EvalEnv where
  registryUrl : String
  registryKey : Option String
  onyxUrl : String
  evalServiceDir : String
  evalServicePresent : Bool
deriving Repr

/-- A finished subprocess: exit code and captured text streams
(`subprocess.run(..., capture_output=True, text=True)`). -/
structure ProcResult where
  returncode : Int
  stdout : String
  stderr : String
deriving Repr

/-- `_default_inference_url` (server.py:436-437). -/
def _default_inference_url (env : EvalEnv) : String :=
  pyOrStr env.onyxUrl "http://127.0.0.1:8000"

/-- `_require_registry_key` (server.py:72-75). -/
def _require_registry_key (env : EvalEnv) : Except HTTPError String :=
  match env.registryKey with
  | some k => if k = "" then
      .error ⟨503, Json.str "CAIA_REGISTRY_API_KEY not set for dashboard API"⟩
    else .ok k
  | none => .error ⟨503, Json.str "CAIA_REGISTRY_API_KEY not set for dashboard API"⟩

/-- `run_eval` (server.py:476-566). The command construction
(server.py:501-530) only renders CLI argument strings handed to the
subprocess; the subprocess itself is abstracted into `proc` and
`stdoutJson`, but the `_require_registry_key` call it contains is kept,
since it can raise before anything is spawned. -/
def run_eval (env : EvalEnv) (body : List (String × Json))
    (proc : ProcResult) (stdoutJson : Option Json) (t d : Nat) :
    Except HTTPError Json :=
  let inference_url := pyGetOr (jLookup body "inference_url") (_default_inference_url env)
  match asPyIntOpt (jLookup body "model_id") with
  | none => .error ⟨400, Json.str "model_id must be an integer"⟩
  | some _ =>
  match jLookup body "suite" with
  | some (Json.str rawSuite) =>
    if pyStrip rawSuite = "" then .error ⟨400, Json.str "suite is required"⟩
    else
      let suite := pyStrip rawSuite
      if !(suite = "smoke-v1" || suite = "core-v1" || suite = "math-corpus-v1") then
        .error ⟨400, Json.str "suite must be one of: smoke-v1, core-v1, math-corpus-v1"⟩
      else
        match inference_url with
        | Json.str iu =>
          if pyStrip iu = "" then .error ⟨400, Json.str "inference_url is required"⟩
          else if !env.evalServicePresent then
            .error ⟨503, Json.str ("Eval service not found at " ++ env.evalServiceDir
              ++ " (set CAIA_EVAL_SERVICE_DIR)")⟩
          else
            match _require_registry_key env with
            | .error e => .error e
            | .ok _ =>
              let started_at := t
              if proc.returncode ≠ 0 then
                .error ⟨502, Json.obj
                  [("upstream", Json.str "caiatech-eval-service"),
                   ("returncode", Json.num proc.returncode),
                   ("stdout", Json.str (pyStrip proc.stdout)),
                   ("stderr", Json.str (pyStrip proc.stderr))]⟩
              else
                let stdout := pyStrip proc.stdout
                match stdoutJson with
                | none => .error ⟨502, Json.obj
                    [("upstream", Json.str "caiatech-eval-service"),
                     ("error", Json.str "Invalid JSON on stdout"),
                     ("stdout", Json.str stdout)]⟩
                | some (Json.obj fields) =>
                  match jLookup fields "eval_run_id" with
                  | some (Json.str _) =>
                    .ok (Json.obj (setKey (setKey fields "started_at" (Json.num started_at))
                      "finished_at" (Json.num (t + d))))
                  | _ => .error ⟨502, Json.obj
                      [("upstream", Json.str "caiatech-eval-service"),
                       ("error", Json.str "Missing eval_run_id")]⟩
                | some _ => .error ⟨502, Json.obj
                    [("upstream", Json.str "caiatech-eval-service"),
                     ("error", Json.str "Missing eval_run_id")]⟩
        | _ => .error ⟨400, Json.str "inference_url is required"⟩
  | _ => .error ⟨400, Json.str "suite is required"⟩

example :
    run_eval ⟨"http://reg", some "key", "http://onyx", "/srv/eval", true⟩
      [("model_id", Json.num 1), ("suite", Json.str "smoke-v1")]
      ⟨0, "x", ""⟩ (some (Json.obj [("eval_run_id", Json.str "run-42")])) 5 3 =
    .ok (Json.obj [("eval_run_id", Json.str "run-42"),
      ("started_at", Json.num 5), ("finished_at", Json.num 8)]) := rfl

example :
    run_eval ⟨"http://reg", some "key", "http://onyx", "/srv/eval", true⟩
      [("model_id", Json.num 1), ("suite", Json.str "bogus")]
      ⟨0, "x", ""⟩ none 5 3 =
    .error ⟨400, Json.str "suite must be one of: smoke-v1, core-v1, math-corpus-v1"⟩ := rfl

/-!
Aggregate health check (`health`, server.py:150-211). Each probe goes
through the embedded `_request_upstream` with that upstream's configured
base URL; the `try/except HTTPException` around each probe is the match
on the `Except` result.
-/

/-- Startup configuration visible to the health handler. -/
structure HealthCfg where
  registryUrl : String
  registryKey : Option String
  artifactUrl : String
  artifactKey : Option String
  onyxUrl : String
  onyxKey : Option String
  evalServiceDir : String
  evalServicePresent : Bool
  evalRunsDir : String
deriving Repr

/-- Python `bool(KEY)` for an optional configured API key. -/
def keyConfigured : Option String → Bool
  | some k => k ≠ ""
  | none => false

/-- Whether a probe succeeded (the `try` body ran to completion). -/
def reachableOf (res : Except HTTPError Json) : Bool :=
  match res with
  | .ok _ => true
  | .error _ => false

/-- The recorded probe detail: the decoded health payload on success, the
caught exception's detail on failure. -/
def detailOf (res : Except HTTPError Json) : Json :=
  match res with
  | .ok j => j
  | .error e => e.detail

/-- `health` (server.py:150-211). `reg`, `art` and `onyx` are the three
probes' network interactions, as in `_request_upstream`. -/
def health (cfg : HealthCfg) (reg art onyx : Option UpstreamResponse) : Json :=
  let regRes := _request_upstream "model-registry" cfg.registryUrl reg
  let artRes := _request_upstream "artifact-cache-service" cfg.artifactUrl art
  let onyxRes := _request_upstream "onyx-api" cfg.onyxUrl onyx
  Json.obj
    [("status", Json.str "ok"),
     ("registry", Json.obj
       [("url", Json.str cfg.registryUrl),
        ("reachable", Json.bool (reachableOf regRes)),
        ("auth_configured", Json.bool (keyConfigured cfg.registryKey)),
        ("detail", detailOf regRes)]),
     ("artifact_cache", Json.obj
       [("url", Json.str cfg.artifactUrl),
        ("reachable", Json.bool (reachableOf artRes)),
        ("auth_configured", Json.bool (keyConfigured cfg.artifactKey)),
        ("detail", detailOf artRes)]),
     ("onyx_api", Json.obj
       [("url", Json.str cfg.onyxUrl),
        ("reachable", Json.bool (reachableOf onyxRes)),
        ("auth_configured", Json.bool (keyConfigured cfg.onyxKey)),
        ("detail", detailOf onyxRes)]),
     ("eval", Json.obj
       [("eval_service_dir", Json.str cfg.evalServiceDir),
        ("eval_service_present", Json.bool cfg.evalServicePresent),
        ("eval_runs_dir", Json.str cfg.evalRunsDir)])]

/-- Field lookup on a JSON value that is an object. -/
def healthSection (h : Json) (name : String) : Option Json :=
  match h with
  | Json.obj fs => jLookup fs name
  | _ => none

/-!
Onyx inference pass-through (`onyx_generate` server.py:396-409,
`onyx_chat` server.py:412-424). Both copy the caller's JSON object and
force `stream` to `False` before forwarding; the embedding is the body
transformation, i.e. the `json_body` handed to `_request_upstream`.
-/

/-- The body forwarded by `onyx_generate` (server.py:396-409). -/
def onyx_generate_body (body : List (String × Json)) : List (String × Json) :=
  setKey body "stream" (Json.bool false)

/-- The body forwarded by `onyx_chat` (server.py:412-424). -/
def onyx_chat_body (body : List (String × Json)) : List (String × Json) :=
  setKey body "stream" (Json.bool false)

example :
    onyx_generate_body [("prompt", Json.str "hi"), ("stream", Json.bool true)] =
    [("prompt", Json.str "hi"), ("stream", Json.bool false)] := rfl

/-!
Helper lemmas about the embedded dict and string operations.
-/

theorem jLookup_setKey_self (l : List (String × Json)) (k : String) (v : Json) :
    jLookup (setKey l k v) k = some v := by
  induction l with
  | nil => simp [setKey, jLookup]
  | cons p t ih =>
    obtain ⟨a, w⟩ := p
    by_cases hak : a = k
    · simp [setKey, jLookup, hak]
    · simp [setKey, jLookup, hak, ih]

theorem jLookup_setKey_ne (l : List (String × Json)) (k key : String) (v : Json)
    (h : key ≠ k) : jLookup (setKey l k v) key = jLookup l key := by
  induction l with
  | nil => simp [setKey, jLookup, Ne.symm h]
  | cons p t ih =>
    obtain ⟨a, w⟩ := p
    by_cases hak : a = k
    · subst hak
      simp [setKey, jLookup, h.symm]
    · by_cases hakey : a = key <;> simp [setKey, jLookup, hak, hakey, ih, h]

theorem mem_dropWhile_of_neg {α : Type} {p : α → Bool} {c : α} {l : List α}
    (h : c ∈ l) (hp : p c = false) : c ∈ l.dropWhile p := by
  induction l with
  | nil => cases h
  | cons a t ih =>
    rcases List.mem_cons.mp h with rfl | ht
    · simp [List.dropWhile_cons, hp]
    · cases hpa : p a with
      | true => simpa [List.dropWhile_cons, hpa] using ih ht
      | false => simp [List.dropWhile_cons, hpa, List.mem_cons, ht]

theorem mem_pyStrip {c : Char} {s : String} (h : c ∈ s.data)
    (hp : isPySpace c = false) : c ∈ (pyStrip s).data := by
  have h1 := mem_dropWhile_of_neg h hp
  have h2 : c ∈ (s.data.dropWhile isPySpace).reverse := List.mem_reverse.mpr h1
  have h3 := mem_dropWhile_of_neg h2 hp
  simpa [pyStrip] using List.mem_reverse.mpr h3

/-- C1: for every call forwarded through the Upstream Client, when the
upstream responds with HTTP status >= 400, the error returned preserves
that exact status code, names the upstream, and carries the upstream's
decoded JSON body as the payload when it is parseable, else its raw text
wrapped as a detail object. -/
theorem upstream_error_preserves_status
    (upstream base_url : String) (resp : UpstreamResponse)
    (hb : base_url ≠ "") (hs : 400 ≤ resp.status) :
    _request_upstream upstream base_url (some resp) =
      Except.error ⟨resp.status,
        Json.obj [("upstream", Json.str upstream), ("error", errorPayload resp)]⟩ ∧
    (∀ j, resp.parsed = some j → errorPayload resp = j) ∧
    (resp.parsed = none →
      errorPayload resp = Json.obj [("detail", Json.str resp.text)]) := by
  refine ⟨?_, ?_, ?_⟩
  · simp [_request_upstream, hb, hs]
  · intro j hj; simp [errorPayload, hj]
  · intro hj; simp [errorPayload, hj]

/-- Witness for C1: a 404 with unparseable body "nope" from the onyx
upstream surfaces as a 404 naming the upstream, payload wrapped as a
detail object. -/
theorem upstream_error_preserves_status_witness :
    _request_upstream "onyx-api" "http://o" (some ⟨404, "nope", none⟩) =
      Except.error ⟨404, Json.obj [("upstream", Json.str "onyx-api"),
        ("error", Json.obj [("detail", Json.str "nope")])]⟩ := by
  exact (upstream_error_preserves_status "onyx-api" "http://o" ⟨404, "nope", none⟩
    (by decide) (by decide)).1

/-- C3 counterexample: a 200 upstream response with an empty (hence
unparseable) body is mapped to a 502 invalid-JSON error, not to a
"no content" success, refuting the claim for empty-bodied 2xx responses
other than 204. -/
theorem empty_body_200_is_error :
    _request_upstream "artifact-cache-service" "http://127.0.0.1:8002"
      (some ⟨200, "", none⟩) =
    Except.error ⟨502, Json.str "artifact-cache-service returned invalid JSON"⟩ := rfl

/-- C3 amended: a 204 upstream response maps to the success value null;
any other 2xx response whose body is not parseable as JSON (in particular
an empty body) fails with a 502 invalid-JSON error. -/
theorem no_content_amended (upstream base_url : String) (resp : UpstreamResponse)
    (hb : base_url ≠ "") :
    (resp.status = 204 →
      _request_upstream upstream base_url (some resp) = Except.ok Json.null) ∧
    (resp.status < 400 → resp.status ≠ 204 → resp.parsed = none →
      _request_upstream upstream base_url (some resp) =
        Except.error ⟨502, Json.str (upstream ++ " returned invalid JSON")⟩) := by
  constructor
  · intro h204
    simp [_request_upstream, hb, h204]
  · intro hlt hne hp
    simp [_request_upstream, hb, hp, hne, Nat.not_le.mpr hlt]

/-- Witness for C3 amended: 204 yields null, a 200 with empty body yields
the 502 invalid-JSON error. -/
theorem no_content_amended_witness :
    _request_upstream "onyx-api" "http://o" (some ⟨204, "", none⟩) = Except.ok Json.null ∧
    _request_upstream "onyx-api" "http://o" (some ⟨200, "", none⟩) =
      Except.error ⟨502, Json.str "onyx-api returned invalid JSON"⟩ := by
  constructor
  · exact (no_content_amended "onyx-api" "http://o" ⟨204, "", none⟩ (by decide)).1 rfl
  · exact (no_content_amended "onyx-api" "http://o" ⟨200, "", none⟩ (by decide)).2
      (by decide) (by decide) rfl

/-- C8: for every checkpoint resolution where the model's artifact_uri has
a scheme other than s3:// or file:// and is not a bare filesystem path
(it contains "://"), the operation fails with an unsupported-scheme error
and no resolve request body is produced. -/
theorem unsupported_scheme_rejected (fields : List (String × Json)) (raw : String)
    (hau : jLookup fields "artifact_uri" = some (Json.str raw))
    (hne : pyStrip raw ≠ "")
    (h1 : pyStartsWith (pyStrip raw) "s3://" = false)
    (h2 : pyStartsWith (pyStrip raw) "file://" = false)
    (h3 : hasSubstr (pyStrip raw) "://" = true) :
    resolve_model_checkpoint (Json.obj fields) =
      Except.error ⟨400,
        Json.str ("Unsupported artifact_uri scheme for resolution: " ++ pyStrip raw)⟩ := by
  simp [resolve_model_checkpoint, hau, hne, h1, h2, h3]

/-- Witness for C8: a gs:// URI is rejected as an unsupported scheme. -/
theorem unsupported_scheme_rejected_witness :
    resolve_model_checkpoint (Json.obj
      [("artifact_uri", Json.str "gs://bucket/ckpt"),
       ("checkpoint_sha256", Json.str "abc"),
       ("checkpoint_size_bytes", Json.num 7)]) =
    Except.error ⟨400,
      Json.str "Unsupported artifact_uri scheme for resolution: gs://bucket/ckpt"⟩ := by
  exact unsupported_scheme_rejected
    [("artifact_uri", Json.str "gs://bucket/ckpt"),
     ("checkpoint_sha256", Json.str "abc"),
     ("checkpoint_size_bytes", Json.num 7)]
    "gs://bucket/ckpt" rfl (by decide) (by decide) (by decide) (by decide)

/-- C10: for every JSON-object body sent to the onyx generate or chat
endpoints, the forwarded body equals the caller's body with the key
"stream" set to false and every other key-value pair unchanged. -/
theorem onyx_stream_forced (body : List (String × Json)) :
    jLookup (onyx_generate_body body) "stream" = some (Json.bool false) ∧
    jLookup (onyx_chat_body body) "stream" = some (Json.bool false) ∧
    (∀ key, key ≠ "stream" →
      jLookup (onyx_generate_body body) key = jLookup body key ∧
      jLookup (onyx_chat_body body) key = jLookup body key) := by
  refine ⟨jLookup_setKey_self body "stream" (Json.bool false),
    jLookup_setKey_self body "stream" (Json.bool false),
    fun key hk => ⟨jLookup_setKey_ne body "stream" key (Json.bool false) hk,
      jLookup_setKey_ne body "stream" key (Json.bool false) hk⟩⟩

/-- Witness for C10: a body with stream=true and a prompt is forwarded
with stream forced to false and the prompt untouched. -/
theorem onyx_stream_forced_witness :
    jLookup (onyx_generate_body [("prompt", Json.str "hi"), ("stream", Json.bool true)])
      "stream" = some (Json.bool false) ∧
    jLookup (onyx_generate_body [("prompt", Json.str "hi"), ("stream", Json.bool true)])
      "prompt" = jLookup [("prompt", Json.str "hi"), ("stream", Json.bool true)] "prompt" := by
  have h := onyx_stream_forced [("prompt", Json.str "hi"), ("stream", Json.bool true)]
  exact ⟨h.1, (h.2.2 "prompt" (by decide)).1⟩

/-- C2: for every checkpoint resolution where the model's artifact_uri
starts with s3://, a missing checksum or a missing size fails with a 400
validation error and no resolve request body is produced; when both are
present (a non-empty string checksum and a non-negative integer size) the
resolve request body is exactly the three keys artifact_uri, sha256 and
size_bytes. -/
theorem resolve_s3_requires_checksum_size
    (fields : List (String × Json)) (raw : String)
    (hau : jLookup fields "artifact_uri" = some (Json.str raw))
    (hne : pyStrip raw ≠ "")
    (hs3 : pyStartsWith (pyStrip raw) "s3://" = true) :
    (jLookup fields "checkpoint_sha256" = none →
      resolve_model_checkpoint (Json.obj fields) =
        Except.error ⟨400, Json.str "Remote artifact requires checkpoint_sha256"⟩) ∧
    (∀ sha, jLookup fields "checkpoint_sha256" = some (Json.str sha) →
      pyStrip sha ≠ "" →
      jLookup fields "checkpoint_size_bytes" = none →
      resolve_model_checkpoint (Json.obj fields) =
        Except.error ⟨400, Json.str "Remote artifact requires checkpoint_size_bytes"⟩) ∧
    (∀ sha n, jLookup fields "checkpoint_sha256" = some (Json.str sha) →
      pyStrip sha ≠ "" →
      jLookup fields "checkpoint_size_bytes" = some (Json.num n) → 0 ≤ n →
      resolve_model_checkpoint (Json.obj fields) =
        Except.ok [("artifact_uri", Json.str (pyStrip raw)),
          ("sha256", Json.str sha), ("size_bytes", Json.num n)]) := by
  refine ⟨?_, ?_, ?_⟩
  · intro hsha
    simp [resolve_model_checkpoint, hau, hne, hs3, hsha]
  · intro sha hsha hshane hsize
    simp [resolve_model_checkpoint, hau, hne, hs3, hsha, hshane, hsize, asPyIntOpt]
  · intro sha n hsha hshane hsize hn
    simp [resolve_model_checkpoint, hau, hne, hs3, hsha, hshane, hsize,
      asPyIntOpt, asPyInt, Int.not_lt.mpr hn]

/-- Witness for C2: a missing checksum, then a missing size, each fail
with the validation error; a complete descriptor yields exactly the
three-key resolve body. -/
theorem resolve_s3_requires_checksum_size_witness :
    resolve_model_checkpoint (Json.obj [("artifact_uri", Json.str "s3://b/c")]) =
      Except.error ⟨400, Json.str "Remote artifact requires checkpoint_sha256"⟩ ∧
    resolve_model_checkpoint (Json.obj
      [("artifact_uri", Json.str "s3://b/c"), ("checkpoint_sha256", Json.str "abc")]) =
      Except.error ⟨400, Json.str "Remote artifact requires checkpoint_size_bytes"⟩ ∧
    resolve_model_checkpoint (Json.obj
      [("artifact_uri", Json.str "s3://b/c"), ("checkpoint_sha256", Json.str "abc"),
       ("checkpoint_size_bytes", Json.num 7)]) =
      Except.ok [("artifact_uri", Json.str "s3://b/c"),
        ("sha256", Json.str "abc"), ("size_bytes", Json.num 7)] := by
  refine ⟨?_, ?_, ?_⟩
  · exact (resolve_s3_requires_checksum_size
      [("artifact_uri", Json.str "s3://b/c")] "s3://b/c"
      rfl (by decide) (by decide)).1 rfl
  · exact (resolve_s3_requires_checksum_size
      [("artifact_uri", Json.str "s3://b/c"), ("checkpoint_sha256", Json.str "abc")]
      "s3://b/c" rfl (by decide) (by decide)).2.1 "abc" rfl (by decide) rfl
  · exact (resolve_s3_requires_checksum_size
      [("artifact_uri", Json.str "s3://b/c"), ("checkpoint_sha256", Json.str "abc"),
       ("checkpoint_size_bytes", Json.num 7)]
      "s3://b/c" rfl (by decide) (by decide)).2.2 "abc" 7 rfl (by decide) rfl (by decide)

/-- C9: for every run identifier containing a path separator or a null
byte, the summary and jsonl endpoints reject the request with a 400
before any filesystem path is constructed from it: the outcome is the
same for every filesystem. -/
theorem run_id_separator_rejected (raw : String)
    (h : ('/' ∈ raw.data) ∨ ('\\' ∈ raw.data) ∨ (Char.ofNat 0 ∈ raw.data))
    (runsDir : String) (fs : String → Option (Option Json))
    (fs2 : String → Option String) :
    get_eval_summary raw runsDir fs =
      Except.error ⟨400, Json.str "Invalid eval_run_id"⟩ ∧
    get_eval_jsonl raw runsDir fs2 =
      Except.error ⟨400, Json.str "Invalid eval_run_id"⟩ := by
  have hnil : ("" : String).data = ([] : List Char) := rfl
  have hne : pyStrip raw ≠ "" := by
    intro he
    rcases h with hc | hc | hc
    · have hm := mem_pyStrip hc (by decide); rw [he, hnil] at hm; cases hm
    · have hm := mem_pyStrip hc (by decide); rw [he, hnil] at hm; cases hm
    · have hm := mem_pyStrip hc (by decide); rw [he, hnil] at hm; cases hm
  have hmem : ('/' ∈ (pyStrip raw).data) ∨ ('\\' ∈ (pyStrip raw).data)
      ∨ (Char.ofNat 0 ∈ (pyStrip raw).data) := by
    rcases h with hc | hc | hc
    · exact Or.inl (mem_pyStrip hc (by decide))
    · exact Or.inr (Or.inl (mem_pyStrip hc (by decide)))
    · exact Or.inr (Or.inr (mem_pyStrip hc (by decide)))
  have hsafe : _safe_run_id raw = Except.error ⟨400, Json.str "Invalid eval_run_id"⟩ := by
    rcases hmem with hm | hm | hm <;> simp [_safe_run_id, hne, hm]
  exact ⟨by simp [get_eval_summary, hsafe], by simp [get_eval_jsonl, hsafe]⟩

/-- Witness for C9: the run id "../secret" is rejected by both endpoints
on the empty filesystem. -/
theorem run_id_separator_rejected_witness :
    get_eval_summary "../secret" "/data/eval_runs" (fun _ => none) =
      Except.error ⟨400, Json.str "Invalid eval_run_id"⟩ ∧
    get_eval_jsonl "../secret" "/data/eval_runs" (fun _ => none) =
      Except.error ⟨400, Json.str "Invalid eval_run_id"⟩ :=
  run_id_separator_rejected "../secret" (Or.inl (by decide)) "/data/eval_runs" _ _

/-- C4 counterexample: for a spawned evaluation process exiting 1 with
stderr "model not found" followed by a newline, the error envelope
carries the stripped text "model not found", which differs from the
captured stream, refuting "verbatim". -/
theorem process_error_not_verbatim :
    run_eval ⟨"http://reg", some "key", "http://onyx", "/srv/eval", true⟩
      [("model_id", Json.num 1), ("suite", Json.str "smoke-v1")]
      ⟨1, "", "model not found\n"⟩ none 0 0 =
    Except.error ⟨502, Json.obj
      [("upstream", Json.str "caiatech-eval-service"),
       ("returncode", Json.num 1),
       ("stdout", Json.str ""),
       ("stderr", Json.str "model not found")]⟩ ∧
    ("model not found" : String) ≠ "model not found\n" := ⟨rfl, by decide⟩

/-- C4 amended: for every eval-run invocation where the spawned process
exits with a non-zero code, the gateway fails with a 502 envelope that
contains that exit code and the captured stdout and stderr stripped of
leading and trailing whitespace (otherwise unchanged), never swallowed. -/
theorem process_error_envelope (env : EvalEnv) (body : List (String × Json))
    (proc : ProcResult) (stdoutJson : Option Json) (t d : Nat)
    (m : Int) (hm : asPyIntOpt (jLookup body "model_id") = some m)
    (su : String) (hsu : jLookup body "suite" = some (Json.str su))
    (hsu3 : pyStrip su = "smoke-v1" ∨ pyStrip su = "core-v1" ∨ pyStrip su = "math-corpus-v1")
    (iu : String)
    (hiu : pyGetOr (jLookup body "inference_url") (_default_inference_url env) = Json.str iu)
    (hiu2 : pyStrip iu ≠ "")
    (hsvc : env.evalServicePresent = true)
    (k : String) (hk : env.registryKey = some k) (hk2 : k ≠ "")
    (hrc : proc.returncode ≠ 0) :
    run_eval env body proc stdoutJson t d =
      Except.error ⟨502, Json.obj
        [("upstream", Json.str "caiatech-eval-service"),
         ("returncode", Json.num proc.returncode),
         ("stdout", Json.str (pyStrip proc.stdout)),
         ("stderr", Json.str (pyStrip proc.stderr))]⟩ := by
  rcases hsu3 with h | h | h <;>
    simp [run_eval, hm, hsu, hiu, h, hsvc, _require_registry_key, hk, hk2, hiu2, hrc]

/-- Witness for C4 amended: exit code 3 with stdout "out" plus newline and
stderr "boom" yields the envelope with code 3 and the stripped streams. -/
theorem process_error_envelope_witness :
    run_eval ⟨"http://reg", some "key", "http://onyx", "/srv/eval", true⟩
      [("model_id", Json.num 7), ("suite", Json.str "core-v1")]
      ⟨3, "out\n", "boom"⟩ none 2 4 =
    Except.error ⟨502, Json.obj
      [("upstream", Json.str "caiatech-eval-service"),
       ("returncode", Json.num 3),
       ("stdout", Json.str "out"),
       ("stderr", Json.str "boom")]⟩ := by
  exact process_error_envelope ⟨"http://reg", some "key", "http://onyx", "/srv/eval", true⟩
    [("model_id", Json.num 7), ("suite", Json.str "core-v1")]
    ⟨3, "out\n", "boom"⟩ none 2 4 7 rfl "core-v1" rfl (Or.inr (Or.inl (by decide)))
    "http://onyx" rfl (by decide) rfl "key" rfl (by decide) (by decide)

/-- The result object produced by a successful eval run: the emitted
fields with the two gateway timestamps stamped on. -/
def stampTimestamps (fields : List (String × Json)) (t d : Nat) :
    List (String × Json) :=
  setKey (setKey fields "started_at" (Json.num t)) "finished_at" (Json.num (t + d))

/-- C5: for every eval-run invocation where the process exits 0 and
prints a JSON object containing a string eval_run_id, the returned result
contains that eval_run_id plus every other field the process emitted
(other than the two stamped keys), and started_at is the clock value t
read immediately before spawning, finished_at the value t + d read
immediately after the process exits, with finished_at >= started_at. -/
theorem eval_success_result (env : EvalEnv) (body : List (String × Json))
    (proc : ProcResult) (stdoutJson : Option Json) (t d : Nat)
    (m : Int) (hm : asPyIntOpt (jLookup body "model_id") = some m)
    (su : String) (hsu : jLookup body "suite" = some (Json.str su))
    (hsu3 : pyStrip su = "smoke-v1" ∨ pyStrip su = "core-v1" ∨ pyStrip su = "math-corpus-v1")
    (iu : String)
    (hiu : pyGetOr (jLookup body "inference_url") (_default_inference_url env) = Json.str iu)
    (hiu2 : pyStrip iu ≠ "")
    (hsvc : env.evalServicePresent = true)
    (k : String) (hk : env.registryKey = some k) (hk2 : k ≠ "")
    (hrc : proc.returncode = 0)
    (fields : List (String × Json)) (hsj : stdoutJson = some (Json.obj fields))
    (rid : String) (hrid : jLookup fields "eval_run_id" = some (Json.str rid)) :
    run_eval env body proc stdoutJson t d =
      Except.ok (Json.obj (stampTimestamps fields t d)) ∧
    jLookup (stampTimestamps fields t d) "eval_run_id" = some (Json.str rid) ∧
    (∀ key, key ≠ "started_at" → key ≠ "finished_at" →
      jLookup (stampTimestamps fields t d) key = jLookup fields key) ∧
    jLookup (stampTimestamps fields t d) "started_at" = some (Json.num t) ∧
    jLookup (stampTimestamps fields t d) "finished_at" = some (Json.num (t + d)) ∧
    t ≤ t + d := by
  have hother : ∀ key, key ≠ "started_at" → key ≠ "finished_at" →
      jLookup (stampTimestamps fields t d) key = jLookup fields key := by
    intro key h1 h2
    rw [stampTimestamps, jLookup_setKey_ne _ _ _ _ h2, jLookup_setKey_ne _ _ _ _ h1]
  refine ⟨?_, ?_, hother, ?_, ?_, Nat.le_add_right t d⟩
  · rcases hsu3 with h | h | h <;>
      simp [run_eval, hm, hsu, hiu, h, hsvc, _require_registry_key, hk, hk2, hiu2,
        hrc, hsj, hrid, stampTimestamps]
  · rw [hother "eval_run_id" (by decide) (by decide)]; exact hrid
  · rw [stampTimestamps, jLookup_setKey_ne _ _ _ _ (by decide)]
    exact jLookup_setKey_self fields "started_at" (Json.num t)
  · rw [stampTimestamps]
    exact jLookup_setKey_self _ "finished_at" (Json.num (t + d))

/-- Witness for C5: a run emitting only eval_run_id "run-42", spawned at
clock 5 and taking 3, returns that id with started_at 5, finished_at 8. -/
theorem eval_success_result_witness :
    run_eval ⟨"http://reg", some "key", "http://onyx", "/srv/eval", true⟩
      [("model_id", Json.num 1), ("suite", Json.str "smoke-v1")]
      ⟨0, "x", ""⟩ (some (Json.obj [("eval_run_id", Json.str "run-42")])) 5 3 =
    Except.ok (Json.obj [("eval_run_id", Json.str "run-42"),
      ("started_at", Json.num 5), ("finished_at", Json.num 8)]) ∧
    (5 : Nat) ≤ 8 := by
  have h := eval_success_result
    ⟨"http://reg", some "key", "http://onyx", "/srv/eval", true⟩
    [("model_id", Json.num 1), ("suite", Json.str "smoke-v1")]
    ⟨0, "x", ""⟩ (some (Json.obj [("eval_run_id", Json.str "run-42")])) 5 3
    1 rfl "smoke-v1" rfl (Or.inl (by decide))
    "http://onyx" rfl (by decide) rfl "key" rfl (by decide) rfl
    [("eval_run_id", Json.str "run-42")] rfl "run-42" rfl
  exact ⟨h.1, h.2.2.2.2.2⟩

/-- C6 counterexample: with the configured inference base URL empty and a
body omitting inference_url, the eval run proceeds and succeeds using the
hardcoded fallback, instead of failing with a ValidationError as the
claim requires. -/
theorem inference_default_no_validation_error :
    run_eval ⟨"http://reg", some "key", "", "/srv/eval", true⟩
      [("model_id", Json.num 1), ("suite", Json.str "smoke-v1")]
      ⟨0, "x", ""⟩ (some (Json.obj [("eval_run_id", Json.str "run-42")])) 5 3 =
    Except.ok (Json.obj [("eval_run_id", Json.str "run-42"),
      ("started_at", Json.num 5), ("finished_at", Json.num 8)]) := rfl

/-- C6 amended: when the body omits inference_url, the value defaults to
the configured inference upstream's base URL; when that configured value
is empty, the hardcoded fallback URL is used instead, so the default is
never empty and the absence of inference_url never triggers the
inference_url ValidationError on account of an empty default. -/
theorem inference_url_default_amended (env : EvalEnv) (body : List (String × Json))
    (h : jLookup body "inference_url" = none) :
    pyGetOr (jLookup body "inference_url") (_default_inference_url env) =
      Json.str (_default_inference_url env) ∧
    _default_inference_url env =
      (if env.onyxUrl = "" then "http://127.0.0.1:8000" else env.onyxUrl) ∧
    _default_inference_url env ≠ "" := by
  refine ⟨by simp [pyGetOr, h], by simp [_default_inference_url, pyOrStr], ?_⟩
  by_cases hc : env.onyxUrl = "" <;> simp [_default_inference_url, pyOrStr, hc]

/-- Witness for C6 amended: with an empty configured inference URL and a
body without inference_url, the resolved value is the non-empty hardcoded
fallback. -/
theorem inference_url_default_amended_witness :
    pyGetOr (jLookup [("model_id", Json.num 1)] "inference_url")
      (_default_inference_url ⟨"http://reg", some "key", "", "/srv/eval", true⟩) =
      Json.str (_default_inference_url ⟨"http://reg", some "key", "", "/srv/eval", true⟩) ∧
    _default_inference_url ⟨"http://reg", some "key", "", "/srv/eval", true⟩ ≠ "" := by
  have h := inference_url_default_amended
    ⟨"http://reg", some "key", "", "/srv/eval", true⟩ [("model_id", Json.num 1)] rfl
  exact ⟨h.1, h.2.2⟩

/-- C7: the aggregate health check always returns a structured result
with overall status "ok"; each upstream's section records that upstream's
own probe outcome as a reachability boolean, an auth-configured boolean
and the raw detail; and each section is unchanged when the other two
probes' outcomes change, so no probe's failure aborts the others or the
overall call. -/
theorem health_isolated_probes (cfg : HealthCfg)
    (reg reg' art art' onyx onyx' : Option UpstreamResponse) :
    (∃ fields, health cfg reg art onyx = Json.obj fields ∧
      jLookup fields "status" = some (Json.str "ok")) ∧
    healthSection (health cfg reg art onyx) "registry" =
      some (Json.obj
        [("url", Json.str cfg.registryUrl),
         ("reachable", Json.bool (reachableOf
            (_request_upstream "model-registry" cfg.registryUrl reg))),
         ("auth_configured", Json.bool (keyConfigured cfg.registryKey)),
         ("detail", detailOf (_request_upstream "model-registry" cfg.registryUrl reg))]) ∧
    healthSection (health cfg reg art onyx) "artifact_cache" =
      some (Json.obj
        [("url", Json.str cfg.artifactUrl),
         ("reachable", Json.bool (reachableOf
            (_request_upstream "artifact-cache-service" cfg.artifactUrl art))),
         ("auth_configured", Json.bool (keyConfigured cfg.artifactKey)),
         ("detail", detailOf (_request_upstream "artifact-cache-service" cfg.artifactUrl art))]) ∧
    healthSection (health cfg reg art onyx) "onyx_api" =
      some (Json.obj
        [("url", Json.str cfg.onyxUrl),
         ("reachable", Json.bool (reachableOf
            (_request_upstream "onyx-api" cfg.onyxUrl onyx))),
         ("auth_configured", Json.bool (keyConfigured cfg.onyxKey)),
         ("detail", detailOf (_request_upstream "onyx-api" cfg.onyxUrl onyx))]) ∧
    healthSection (health cfg reg art onyx) "registry" =
      healthSection (health cfg reg art' onyx') "registry" ∧
    healthSection (health cfg reg art onyx) "artifact_cache" =
      healthSection (health cfg reg' art onyx') "artifact_cache" ∧
    healthSection (health cfg reg art onyx) "onyx_api" =
      healthSection (health cfg reg' art' onyx) "onyx_api" := by
  refine ⟨⟨_, rfl, ?_⟩, ?_, ?_, ?_, ?_, ?_, ?_⟩ <;>
    simp [health, healthSection, jLookup]
